import Mathlib

/-!
Verification of the release-packaging script (package.py) of this repository,
together with the import-listener formatting helper
(atest/testresources/listeners/ListenImports.py).

The script is Python 2.  The embedding below models:
* the version-resolution operation (the `version` function together with
  `_verify_version`, `_update_version`, `_keep_version` and the generated
  `get_version` accessor of the version-metadata module);
* the `jar` runtime-bundling pipeline (`_get_jython_jar`, `_create_tmpdir`,
  `_compile_java_classes`, `_unzip_jython_jar`, `_copy_robot_files`,
  `_compile_all_py_files`, `_overwrite_manifest`, `_create_jar_file`,
  `_fill_jar`) as a state transformer over an explicit filesystem world,
  parameterised by the outcomes of the external tools (javac, the Jython
  compileall run, the jar archiver, urlretrieve);
* the `sdist`, `wininst`, `all` and `version` commands and the `__main__`
  dispatch with its exception handling, to the extent the claims need them;
* the `ListenImports._pretty` attribute formatter.

External collaborators (javac, the Jython interpreter, the jar tool, setup.py,
the network) are modelled through environment parameters giving their exit
status and the files they produce; the control flow around them is translated
from the source.  File paths are modelled relative to the project root with
forward-slash separators (POSIX, os.sep = the slash character).
-/

namespace Package

/-- Python 2 byte-string regex digit class: the ASCII digits. -/
def isDig (c : Char) : Bool := c.isDigit

/-- Full match of the core of the anchored pattern `^2\.\d+(\.\d+)?$` from
VERSIONS, on an explicit character list. -/
def numericCore : List Char → Bool
  | '2' :: '.' :: rest =>
    let ds := rest.takeWhile isDig
    let tail := rest.drop ds.length
    !ds.isEmpty &&
      (tail.isEmpty ||
        (match tail with
         | '.' :: more => !more.isEmpty && more.all isDig
         | _ => false))
  | _ => false

/-- Full match of the core of `^a\d*$` (first entry of RELEASES). -/
def relACore : List Char → Bool
  | 'a' :: ds => ds.all isDig
  | _ => false

/-- Full match of the core of `^b\d*$` (second entry of RELEASES). -/
def relBCore : List Char → Bool
  | 'b' :: ds => ds.all isDig
  | _ => false

/-- Full match of the core of `^rc\d*$` (third entry of RELEASES). -/
def relRCCore : List Char → Bool
  | 'r' :: 'c' :: ds => ds.all isDig
  | _ => false

/-- Python `re.search` of a pattern anchored as `^...$` (no MULTILINE flag):
the core must match the whole string, or the whole string minus one trailing
newline, because the dollar anchor in Python also matches just before a
newline that ends the string. -/
def searchAnchored (core : List Char → Bool) (s : String) : Bool :=
  core s.data ||
    (match s.data.getLast? with
     | some c => c == '\n' && core s.data.dropLast
     | none => false)

/-- An entry of the VERSIONS or RELEASES list: either a plain string or one of
the four compiled regular expressions appearing in the source. -/
inductive Pat
  | lit (s : String)
  | reNumeric
  | reA
  | reB
  | reRC
deriving DecidableEq, Repr

/-- The test performed by the loop body of `_verify_version`: a plain-string
entry is compared with `==`; a compiled-pattern entry is applied with
`.search` (comparing the given string with a pattern object via `==` is always
false in Python 2, so only the search matters for those entries). -/
def Pat.accepts : Pat → String → Bool
  | .lit t, given => given == t
  | .reNumeric, given => searchAnchored numericCore given
  | .reA, given => searchAnchored relACore given
  | .reB, given => searchAnchored relBCore given
  | .reRC, given => searchAnchored relRCCore given

/-- VERSIONS = [re.compile(the anchored numeric pattern), "trunk", "keep"]. -/
def VERSIONS : List Pat := [.reNumeric, .lit "trunk", .lit "keep"]

/-- RELEASES = [re.compile of a-digits, b-digits, rc-digits, "final"]. -/
def RELEASES : List Pat := [.reA, .reB, .reRC, .lit "final"]

/-- `_verify_version(given, valid)`: returns the given string if some entry of
the list accepts it, otherwise raises ValueError (modelled as `none`). -/
def verify_version (given : String) (valid : List Pat) : Option String :=
  if valid.any (fun item => item.accepts given) then some given else none

/-- The literal fields VERSION, RELEASE and TIMESTAMP of the generated
version-metadata module (src/robot/version.py).  The module text is a fixed
template over these three strings, so two states with equal fields denote
byte-for-byte equal files. -/
structure VersionFile where
  version : String
  release : String
  timestamp : String
deriving DecidableEq, Repr

/-- The generated accessor `get_version(sep)` of the version-metadata
module. -/
def get_version (vf : VersionFile) (sep : String) : String :=
  if vf.release == "final" then vf.version else vf.version ++ sep ++ vf.release

/-- The first six components of `time.localtime()`. -/
structure LocalTime where
  year : Nat
  month : Nat
  day : Nat
  hour : Nat
  minute : Nat
  second : Nat
deriving DecidableEq, Repr

/-- The C-style `%02d` conversion: at least two characters, zero padded. -/
def pad2 (n : Nat) : String := if n < 10 then "0" ++ Nat.repr n else Nat.repr n

/-- The date stamp written for the development snapshot:
`'%d%02d%02d' % time.localtime()[:3]`. -/
def dateStamp (t : LocalTime) : String :=
  Nat.repr t.year ++ pad2 t.month ++ pad2 t.day

/-- The generation timestamp:
`'%d%02d%02d-%02d%02d%02d' % time.localtime()[:6]`. -/
def timeStamp (t : LocalTime) : String :=
  dateStamp t ++ "-" ++ pad2 t.hour ++ pad2 t.minute ++ pad2 t.second

/-- Whether interpolating this string into one of the single-quoted literals
of the VERSION_CONTENT template leaves the generated module unparseable: a
newline inside the quotes leaves the literal unterminated, so the later
`from version import get_version` raises SyntaxError.  The newline test is
exact for every string `_verify_version` can accept — its patterns admit only
digits, dots, the letters of the fixed words, and the single trailing newline
tolerated by the dollar anchor, so no other literal-breaking character (a
quote or a backslash) can reach the write. -/
def breaksLiteral (s : String) : Bool := s.data.any (fun c => c == '\n')

/-- The Python exception kinds the modelled code can raise. -/
inductive Exc
  | valueError
  | typeError
  | ioError
  | osError
  | syntaxError
deriving DecidableEq, Repr

/-- The `version` function (the version-resolution operation).  Inputs: the
current content of the version-metadata file, the current local time, the
version_number argument and the optional release_tag argument.  On success it
returns the new file content, the string returned by the function (namely
`get_version(sep = the empty string)` read back from the file just written, or
from the untouched file for "keep"), and the status line it prints.  A raised
exception is modelled as `Except.error`: ValueError from `_verify_version`,
TypeError from calling `.search(None)` when release_tag is absent but
required, and SyntaxError from the readback import when a value accepted only
through the trailing-newline quirk was interpolated into the written module —
the write itself has already happened at that point (see `pkgVersionFile` for
the resulting file state; the status line `_update_version` printed before the
failing import is console output only and is not tracked on that path).  The
keep branch performs no write and reads the stored module, which this state
type represents in parsed form. -/
def pkgVersion (vf : VersionFile) (now : LocalTime) (version_number : String)
    (release_tag : Option String) : Except Exc (VersionFile × String × String) :=
  match verify_version version_number VERSIONS with
  | none => .error .valueError
  | some _ =>
    if version_number == "keep" then
      .ok (vf, get_version vf "", "Keeping version " ++ get_version vf " ")
    else if version_number == "trunk" then
      if breaksLiteral version_number || breaksLiteral (dateStamp now) then
        .error .syntaxError
      else
        let vf2 : VersionFile := ⟨version_number, dateStamp now, timeStamp now⟩
        .ok (vf2, get_version vf2 "",
             "Updated version to " ++ version_number ++ " " ++ dateStamp now)
    else
      match release_tag with
      | none => .error .typeError
      | some tag =>
        match verify_version tag RELEASES with
        | none => .error .valueError
        | some t =>
          if breaksLiteral version_number || breaksLiteral t then
            .error .syntaxError
          else
            let vf2 : VersionFile := ⟨version_number, t, timeStamp now⟩
            .ok (vf2, get_version vf2 "",
                 "Updated version to " ++ version_number ++ " " ++ t)

/-- Content of the version-metadata file after the `version` call: validation
failures (ValueError, TypeError) abort before the write and the keep branch
writes nothing, so the file is unchanged there; both write branches overwrite
the file unconditionally — also when the written module then fails to parse
back, because the SyntaxError of the import is raised only after
`_update_version` has closed the file. -/
def pkgVersionFile (vf : VersionFile) (now : LocalTime) (version_number : String)
    (release_tag : Option String) : VersionFile :=
  match verify_version version_number VERSIONS with
  | none => vf
  | some _ =>
    if version_number == "keep" then vf
    else if version_number == "trunk" then
      ⟨version_number, dateStamp now, timeStamp now⟩
    else
      match release_tag with
      | none => vf
      | some tag =>
        match verify_version tag RELEASES with
        | none => vf
        | some t => ⟨version_number, t, timeStamp now⟩

/-- Result of invoking one external tool: the executable is missing (the
subprocess call raises OSError), or it ran and returned the given exit
code. -/
inductive ToolResult
  | missing
  | ret (code : Nat)
deriving DecidableEq, Repr

/-- A file in the fixed output directory: its name and, for an archive that
packaged a staging tree, the content of META-INF/MANIFEST.MF it carries. -/
structure Artifact where
  name : String
  manifest : Option String
deriving DecidableEq, Repr

/-- The staging tree (tmp-jar-dir): the set of files it holds, as root-relative
slash-separated paths, plus the content of its manifest file once
`_overwrite_manifest` ran. -/
structure Staging where
  files : List String
  manifest : Option String
deriving DecidableEq, Repr

/-- Behaviour of the external collaborators during one invocation. -/
structure Env where
  now : LocalTime
  /-- whether `urllib.urlretrieve` of the Jython jar succeeds -/
  downloadOk : Bool
  javacRes : ToolResult
  compileallRes : ToolResult
  jarRes : ToolResult
  /-- exit status of `setup.py sdist` run through os.system -/
  sdistRc : Nat
  /-- exit status of `setup.py bdist_wininst` -/
  wininstRc : Nat
  /-- whether os.sep is the backslash (the host is Windows) -/
  winSep : Bool
  sdistArtifacts : List Artifact
  wininstArtifacts : List Artifact
  /-- number of .java files found under src/java -/
  javaSrcCount : Nat
  /-- class files javac drops into the staging tree -/
  javaClassFiles : List String
  /-- files extracted from the Jython standalone jar -/
  jythonFiles : List String
  /-- files copytree places under Lib/robot (it already excludes *.pyc and the
  htmldata/testdata subtree, which `_copy_robot_files` deletes) -/
  robotFiles : List String
  /-- files added by the Jython `-m compileall` run over the staging tree -/
  compiledAdded : List String
deriving DecidableEq, Repr

/-- The filesystem and console state the script manipulates. -/
structure World where
  /-- the ext-lib directory exists -/
  extLibDir : Bool
  /-- ext-lib/jython-standalone-2.5.3.jar exists -/
  jythonJar : Bool
  /-- the staging tree, when the directory exists -/
  staging : Option Staging
  /-- the dist directory exists -/
  distDir : Bool
  distFiles : List Artifact
  /-- the build directory exists -/
  buildDir : Bool
  /-- content of src/robot/version.py -/
  vfile : VersionFile
  /-- lines printed so far -/
  msgs : List String
deriving DecidableEq, Repr

/-- How the modelled call ends: a normal return, an uncaught Python exception,
or `sys.exit` with the given code. -/
inductive Outcome
  | ok
  | exc (e : Exc)
  | halted (code : Nat)
deriving DecidableEq, Repr

def JYTHON_VERSION : String := "2.5.3"

def jythonJarPath : String :=
  "ext-lib/jython-standalone-" ++ JYTHON_VERSION ++ ".jar"

def downloadUrl : String :=
  "http://search.maven.org/remotecontent?filepath=org/python/jython-standalone/"
    ++ JYTHON_VERSION ++ "/jython-standalone-" ++ JYTHON_VERSION ++ ".jar"

/-- `_get_jython_jar`: return the cached jar path if the file exists;
otherwise create the ext-lib directory when absent and download the jar.  A
failed download raises IOError out of urlretrieve, modelled as `none`; note
that the directory creation has already happened at that point. -/
def get_jython_jar (env : Env) (w : World) : World × Option String :=
  if w.jythonJar then (w, some jythonJarPath)
  else
    let w1 := if w.extLibDir then w else { w with extLibDir := true }
    let w2 := { w1 with msgs := w1.msgs ++
      ["Jython not found, going to download from " ++ downloadUrl] }
    if env.downloadOk then ({ w2 with jythonJar := true }, some jythonJarPath)
    else (w2, none)

/-- True for staging-tree paths that `os.walk` over tmp-jar-dir/Lib/robot
reaches. -/
def underLibRobot (p : String) : Bool := "Lib/robot/".data.isPrefixOf p.data

/-- The `f.endswith(".py")` test of the removal loop. -/
def isPyFile (p : String) : Bool := ".py".data.isSuffixOf p.data

/-- `_compile_all_py_files` on the staging tree, given the files the external
Jython compileall run adds next to the sources: after that run, the loop walks
Lib/robot and removes every file ending in .py found there.  Files outside
Lib/robot (in particular the bundled Jython library sources) are never
touched. -/
def compile_all_py_files (added : List String) (tree : List String) : List String :=
  (tree ++ added).filter (fun p => !(underLibRobot p && isPyFile p))

/-- The manifest text `_overwrite_manifest` writes, as a function of the
resolved version string. -/
def manifestContent (v : String) : String :=
  "Manifest-Version: 1.0\nMain-Class: org.robotframework.RobotFramework\nSpecification-Version: 2\nImplementation-Version: "
    ++ v ++ "\n"

def javacFailMsg : String :=
  "Unable to compile java classes! Check for javac command available at the command line."

def jarFailMsg : String :=
  "Unable to create jar! Check for jar command available at the command line."

/-- The `jar` command.  Stages in source order: `_get_jython_jar` (before any
version handling), the status print, `version`, `_create_tmpdir` (destroying a
pre-existing staging tree), then inside a try block `_compile_java_classes`,
`_unzip_jython_jar`, `_copy_robot_files`, `_compile_all_py_files`,
`_overwrite_manifest`, and an inner try around `_create_jar_file`.  Only
`subprocess.CalledProcessError` is caught (the inner handler for the jar tool,
the outer one for everything else in the block — including the Jython
compileall stage, whose failure is thus reported with the javac message); a
missing executable raises OSError, which nothing catches, and the final
`shutil.rmtree(tmpdir)` sits after the try/except, not in a finally clause, so
it runs exactly when no exception escaped the block.  The unzip and copy
stages themselves have no modelled failure, so their worlds are merged into
the following stage. -/
def jar (env : Env) (vn : String) (tag : Option String) (w : World) :
    World × Outcome :=
  match get_jython_jar env w with
  | (w1, none) => (w1, .exc .ioError)
  | (w1, some jj) =>
    let w2 := { w1 with msgs := w1.msgs ++ ["Using Jython " ++ jj] }
    match pkgVersion w2.vfile env.now vn tag with
    | .error e => ({ w2 with vfile := pkgVersionFile w2.vfile env.now vn tag }, .exc e)
    | .ok (vf, ver, vmsg) =>
      let w3 := { w2 with vfile := vf, msgs := w2.msgs ++ [vmsg] }
      let w4 := { w3 with staging := some ⟨[], none⟩,
                          msgs := w3.msgs ++
                            ["Compiling " ++ Nat.repr env.javaSrcCount ++ " source files"] }
      match env.javacRes with
      | .missing => (w4, .exc .osError)
      | .ret c =>
        if c == 0 then
          let treeA := env.javaClassFiles
          let treeB := treeA ++ env.jythonFiles
          let treeC := treeB ++ env.robotFiles.map (fun f => "Lib/robot/" ++ f)
          let w5 := { w4 with staging := some ⟨treeC, none⟩ }
          match env.compileallRes with
          | .missing => (w5, .exc .osError)
          | .ret c2 =>
            if c2 == 0 then
              let treeD := compile_all_py_files env.compiledAdded treeC
              let w6 := { w5 with staging := some ⟨treeD, some (manifestContent ver)⟩ }
              let w7 := if w6.distDir then w6 else { w6 with distDir := true }
              match env.jarRes with
              | .missing => (w7, .exc .osError)
              | .ret c3 =>
                if c3 == 0 then
                  let art : Artifact :=
                    ⟨"robotframework-" ++ ver ++ ".jar", some (manifestContent ver)⟩
                  let w8 := { w7 with
                    distFiles := w7.distFiles ++ [art],
                    msgs := w7.msgs ++
                      ["Created dist/robotframework-" ++ ver ++ ".jar based on " ++ jj] }
                  ({ w8 with staging := none }, .ok)
                else
                  let w8 := { w7 with msgs := w7.msgs ++ [jarFailMsg] }
                  ({ w8 with staging := none }, .ok)
            else
              let w6 := { w5 with msgs := w5.msgs ++ [javacFailMsg] }
              ({ w6 with staging := none }, .ok)
        else
          let w5 := { w4 with msgs := w4.msgs ++ [javacFailMsg] }
          ({ w5 with staging := none }, .ok)

/-- `_clean`: remove the dist and build directories when present. -/
def clean (w : World) : World :=
  { w with msgs := w.msgs ++ ["Cleaning up..."],
           distDir := false, distFiles := [], buildDir := false }

/-- Python str.capitalize: first character upper-cased, the rest lowered. -/
def capitalize (s : String) : String :=
  match s.data with
  | [] => ""
  | c :: cs => ⟨c.toUpper :: cs.map Char.toLower⟩

/-- `_create(command, name)`: runs setup.py through os.system; on a non-zero
status prints the failure line and calls `sys.exit(rc)`; on success the
artifacts produced by setup.py are in the dist directory. -/
def create (rc : Nat) (arts : List Artifact) (name : String) (w : World) :
    World × Outcome :=
  let w1 := { w with msgs := w.msgs ++ ["Creating " ++ name ++ "..."] }
  if rc == 0 then
    ({ w1 with distDir := true, distFiles := w1.distFiles ++ arts,
               msgs := w1.msgs ++ [capitalize name ++ " created successfully."] },
     .ok)
  else
    ({ w1 with msgs := w1.msgs ++ ["Creating " ++ name ++ " failed."] },
     .halted rc)

/-- `_announce`: list the files of the dist directory. -/
def announce (w : World) : World :=
  { w with msgs := w.msgs ++ ["Created:"] ++ w.distFiles.map (fun a => "dist/" ++ a.name) }

/-- `_verify_platform`: a final Windows installer is only built on Windows;
elsewhere it is skipped with two explanatory lines. -/
def verify_platform (winSep : Bool) (release_tag : Option String) (w : World) :
    World × Bool :=
  if release_tag == some "final" && !winSep then
    ({ w with msgs := w.msgs ++
        ["Final Windows installers can only be created in Windows.",
         "Windows installer was not created."] }, false)
  else (w, true)

/-- `_create_wininst`: the installer build plus the portability warning issued
on non-Windows hosts. -/
def create_wininst (env : Env) (w : World) : World × Outcome :=
  match create env.wininstRc env.wininstArtifacts "Windows installer" w with
  | (w1, .ok) =>
    if !env.winSep then
      ({ w1 with msgs := w1.msgs ++
          ["Warning: Windows installers created on other platforms may not",
           "be exactly identical to ones created in Windows."] }, .ok)
    else (w1, .ok)
  | r => r

/-- The `sdist` command. -/
def sdist (env : Env) (vn : String) (tag : Option String) (w : World) :
    World × Outcome :=
  match pkgVersion w.vfile env.now vn tag with
  | .error e => ({ w with vfile := pkgVersionFile w.vfile env.now vn tag }, .exc e)
  | .ok (vf, _, vmsg) =>
    let w1 := clean { w with vfile := vf, msgs := w.msgs ++ [vmsg] }
    match create env.sdistRc env.sdistArtifacts "source distribution" w1 with
    | (w2, .ok) => (announce w2, .ok)
    | r => r

/-- The `wininst` command; note `_announce` runs only when the platform check
passed. -/
def wininst (env : Env) (vn : String) (tag : Option String) (w : World) :
    World × Outcome :=
  match pkgVersion w.vfile env.now vn tag with
  | .error e => ({ w with vfile := pkgVersionFile w.vfile env.now vn tag }, .exc e)
  | .ok (vf, _, vmsg) =>
    let w1 := clean { w with vfile := vf, msgs := w.msgs ++ [vmsg] }
    match verify_platform env.winSep tag w1 with
    | (w2, false) => (w2, .ok)
    | (w2, true) =>
      match create_wininst env w2 with
      | (w3, .ok) => (announce w3, .ok)
      | r => r

/-- The `all` command. -/
def allCmd (env : Env) (vn : String) (tag : Option String) (w : World) :
    World × Outcome :=
  match pkgVersion w.vfile env.now vn tag with
  | .error e => ({ w with vfile := pkgVersionFile w.vfile env.now vn tag }, .exc e)
  | .ok (vf, _, vmsg) =>
    let w1 := clean { w with vfile := vf, msgs := w.msgs ++ [vmsg] }
    match create env.sdistRc env.sdistArtifacts "source distribution" w1 with
    | (w2, .ok) =>
      match verify_platform env.winSep tag w2 with
      | (w3, false) => (announce w3, .ok)
      | (w3, true) =>
        match create_wininst env w3 with
        | (w4, .ok) => (announce w4, .ok)
        | r => r
    | r => r

/-- The `version` command: just the version-resolution operation. -/
def versionCmd (env : Env) (vn : String) (tag : Option String) (w : World) :
    World × Outcome :=
  match pkgVersion w.vfile env.now vn tag with
  | .error e => ({ w with vfile := pkgVersionFile w.vfile env.now vn tag }, .exc e)
  | .ok (vf, _, vmsg) =>
    ({ w with vfile := vf, msgs := w.msgs ++ [vmsg] }, .ok)

/-- Stand-in for the module docstring printed by the `__main__` handler. -/
def usageDoc : String := "Usage:  package.py command version_number [release_tag]"

/-- The `__main__` wrapper: KeyError, IndexError, TypeError and ValueError are
caught and answered by printing the usage text, after which the interpreter
exits 0; any other exception (OSError, IOError) escapes and the interpreter
exits 1 with a traceback; `sys.exit(rc)` yields exit status rc.  The result is
the process exit code together with the final world. -/
def processExit : World × Outcome → Nat × World
  | (w, .ok) => (0, w)
  | (w, .exc .valueError) => (0, { w with msgs := w.msgs ++ [usageDoc] })
  | (w, .exc .typeError) => (0, { w with msgs := w.msgs ++ [usageDoc] })
  | (w, .exc _) => (1, w)
  | (w, .halted c) => (c, w)

end Package

namespace Listeners

/-- Python str.replace on character lists: every non-overlapping occurrence of
`pat`, scanned left to right, is replaced by `repl`.  The fuel argument is the
length of the subject, which bounds the recursion whenever `pat` is nonempty
(the only way the source uses it). -/
def replaceAux : Nat → List Char → List Char → List Char → List Char
  | 0, _, _, s => s
  | _ + 1, _, _, [] => []
  | fuel + 1, pat, repl, c :: cs =>
    if !pat.isEmpty && pat.isPrefixOf (c :: cs) then
      repl ++ replaceAux fuel pat repl ((c :: cs).drop pat.length)
    else
      c :: replaceAux fuel pat repl cs

/-- `s.replace(pat, repl)` for a nonempty pattern. -/
def pyReplace (s pat repl : String) : String :=
  ⟨replaceAux s.data.length pat.data repl.data s.data⟩

/-- Python str.split(sep) for a one-character separator, accumulator form. -/
def splitAux (sep : Char) : List Char → List Char → List (List Char)
  | [], acc => [acc.reverse]
  | c :: cs, acc =>
    if c == sep then acc.reverse :: splitAux sep cs []
    else splitAux sep cs (c :: acc)

/-- Python sep.join for a one-character separator. -/
def joinWith (sep : Char) : List (List Char) → List Char
  | [] => []
  | [x] => x
  | x :: xs => x ++ sep :: joinWith sep xs

/-- An attribute value handed to `_pretty`: the listener API delivers either a
string or a list of strings (`is_string` selects the string case). -/
inductive Entry
  | str (s : String)
  | list (items : List String)
deriving DecidableEq, Repr

/-- os.path.isabs on POSIX: the path starts with a slash. -/
def isabs (s : String) : Bool :=
  match s.data with
  | '/' :: _ => true
  | _ => false

/-- `ListenImports._pretty` with os.sep the forward slash (POSIX host): list
attributes are bracketed and comma-joined; an absolute-path string first has
every `$py.class` and `.pyc` occurrence rewritten to `.py`, is split on the
separator, and is rendered as a double slash followed by its last component —
or its last two components when the filename is `__init__.py` (Python
`tokens[-1:]` and `tokens[-2:]` slices, which saturate at the full list). -/
def pretty (entry : Entry) : String :=
  match entry with
  | .list items => "[" ++ String.intercalate ", " items ++ "]"
  | .str s =>
    if isabs s then
      let e := pyReplace (pyReplace s "$py.class" ".py") ".pyc" ".py"
      let tokens := splitAux '/' e.data []
      let k : Nat := if tokens.getLastD [] == "__init__.py".data then 2 else 1
      ⟨'/' :: '/' :: joinWith '/' (tokens.drop (tokens.length - k))⟩
    else s

end Listeners

namespace Package

/-- Sample content of the version-metadata file, for concrete runs. -/
def vfSample : VersionFile := ⟨"2.0", "final", "t0"⟩

/-- Sample local time, for concrete runs. -/
def tSample : LocalTime := ⟨2026, 10, 12, 3, 4, 5⟩

/-- Sample external-collaborator behaviour where every tool succeeds. -/
def envSample : Env :=
  { now := tSample, downloadOk := true, javacRes := .ret 0,
    compileallRes := .ret 0, jarRes := .ret 0, sdistRc := 0, wininstRc := 0,
    winSep := false, sdistArtifacts := [⟨"robotframework-2.8a1.tar.gz", none⟩],
    wininstArtifacts := [⟨"robotframework-2.8a1.win32.exe", none⟩],
    javaSrcCount := 3,
    javaClassFiles := ["org/robotframework/RobotFramework.class"],
    jythonFiles := ["Lib/os.py", "META-INF/MANIFEST.MF"],
    robotFiles := ["runner.py"],
    compiledAdded := ["Lib/os$py.class", "Lib/robot/runner$py.class"] }

/-- Sample initial world: the Jython jar is already cached. -/
def wSample : World :=
  { extLibDir := true, jythonJar := true, staging := none, distDir := false,
    distFiles := [], buildDir := false, vfile := vfSample, msgs := [] }

/-- Sample initial world without a cached Jython jar and without the ext-lib
directory. -/
def wSampleNoJython : World := { wSample with jythonJar := false, extLibDir := false }

end Package

namespace Package

/-! ### Helper lemmas on decimal rendering -/

theorem toDigitsCore_length (fuel : Nat) :
    ∀ (n : Nat) (acc : List Char), 0 < n → n < 10 ^ fuel →
      (Nat.toDigitsCore 10 fuel n acc).length = Nat.log 10 n + 1 + acc.length := by
  induction fuel with
  | zero =>
    intro n acc h0 h1
    simp at h1
    omega
  | succ f ih =>
    intro n acc h0 h1
    by_cases hnd : n / 10 = 0
    · have hn10 : n < 10 := (Nat.div_eq_zero_iff (by norm_num : (0 : Nat) < 10)).mp hnd
      have hlog : Nat.log 10 n = 0 := Nat.log_eq_zero_iff.mpr (Or.inl hn10)
      have hrec : Nat.toDigitsCore 10 (f + 1) n acc = (n % 10).digitChar :: acc := by
        rw [Nat.toDigitsCore]
        simp [hnd]
      rw [hrec, hlog]
      simp
      omega
    · have hpos : 0 < n / 10 := Nat.pos_of_ne_zero hnd
      have hlt : n / 10 < 10 ^ f := by
        have h10 : n < 10 ^ f * 10 := by
          have hp : (10 : Nat) ^ (f + 1) = 10 ^ f * 10 := pow_succ 10 f
          omega
        exact (Nat.div_lt_iff_lt_mul (by norm_num)).mpr h10
      have hge : 10 ≤ n := by
        by_contra hcon
        exact hnd (Nat.div_eq_of_lt (by omega))
      have hlogpos : 0 < Nat.log 10 n := Nat.log_pos (by norm_num) hge
      have hdiv : Nat.log 10 (n / 10) = Nat.log 10 n - 1 := Nat.log_div_base 10 n
      have hrec : Nat.toDigitsCore 10 (f + 1) n acc
          = Nat.toDigitsCore 10 f (n / 10) ((n % 10).digitChar :: acc) := by
        rw [Nat.toDigitsCore]
        simp [hnd]
      rw [hrec, ih (n / 10) _ hpos hlt, hdiv]
      simp
      omega

theorem natRepr_length (n : Nat) (h0 : 0 < n) :
    (Nat.repr n).length = Nat.log 10 n + 1 := by
  have h1 : n < 10 ^ (n + 1) := by
    calc n < 10 ^ n := Nat.lt_pow_self (by norm_num) n
    _ ≤ 10 ^ (n + 1) := Nat.pow_le_pow_right (by norm_num) (Nat.le_succ n)
  have := toDigitsCore_length (n + 1) n [] h0 h1
  simpa [Nat.repr, Nat.toDigits, List.asString, String.length] using this

theorem natRepr_len_four (y : Nat) (h1 : 1000 ≤ y) (h2 : y < 10000) :
    (Nat.repr y).length = 4 := by
  have hl := natRepr_length y (by omega)
  have hlog : Nat.log 10 y = 3 :=
    Nat.log_eq_of_pow_le_of_lt_pow (by norm_num; omega) (by norm_num; omega)
  omega

theorem pad2_length (n : Nat) (h : n < 100) : (pad2 n).length = 2 := by
  unfold pad2
  by_cases h10 : n < 10
  · have h1 : (Nat.repr n).length = 1 := by
      interval_cases n <;> rfl
    have h0 : "0".length = 1 := rfl
    rw [if_pos h10, String.length_append, h1, h0]
  · have h1 : (Nat.repr n).length = 2 := by
      have hl := natRepr_length n (by omega)
      have hlog : Nat.log 10 n = 1 :=
        Nat.log_eq_of_pow_le_of_lt_pow (by norm_num; omega) (by norm_num; omega)
      omega
    rw [if_neg h10, h1]

theorem digitChar_isDigit (m : Nat) (h : m < 10) : (Nat.digitChar m).isDigit = true := by
  interval_cases m <;> rfl

theorem toDigitsCore_digits (fuel : Nat) :
    ∀ (n : Nat) (acc : List Char), (∀ c ∈ acc, c.isDigit = true) →
      ∀ c ∈ Nat.toDigitsCore 10 fuel n acc, c.isDigit = true := by
  induction fuel with
  | zero =>
    intro n acc hacc c hc
    rw [Nat.toDigitsCore] at hc
    exact hacc c hc
  | succ f ih =>
    intro n acc hacc c hc
    have hmod : n % 10 < 10 := Nat.mod_lt _ (by norm_num)
    by_cases hnd : n / 10 = 0
    · have hrec : Nat.toDigitsCore 10 (f + 1) n acc = (n % 10).digitChar :: acc := by
        rw [Nat.toDigitsCore]
        simp [hnd]
      rw [hrec] at hc
      rcases List.mem_cons.mp hc with hc | hc
      · rw [hc]
        exact digitChar_isDigit _ hmod
      · exact hacc c hc
    · have hrec : Nat.toDigitsCore 10 (f + 1) n acc
          = Nat.toDigitsCore 10 f (n / 10) ((n % 10).digitChar :: acc) := by
        rw [Nat.toDigitsCore]
        simp [hnd]
      rw [hrec] at hc
      refine ih (n / 10) _ ?_ c hc
      intro d hd
      rcases List.mem_cons.mp hd with hd | hd
      · rw [hd]
        exact digitChar_isDigit _ hmod
      · exact hacc d hd

theorem natRepr_digits (n : Nat) : ∀ c ∈ (Nat.repr n).data, c.isDigit = true := by
  intro c hc
  refine toDigitsCore_digits (n + 1) n [] ?_ c ?_
  · intro d hd
    exact absurd hd (List.not_mem_nil d)
  · simpa [Nat.repr, Nat.toDigits, List.asString] using hc

theorem breaksLiteral_of_digits (s : String) (h : ∀ c ∈ s.data, c.isDigit = true) :
    breaksLiteral s = false := by
  unfold breaksLiteral
  rw [List.any_eq_false]
  intro c hc hbeq
  rw [beq_iff_eq] at hbeq
  rw [hbeq] at hc
  have hd := h _ hc
  exact absurd hd (by decide)

theorem pad2_digits (n : Nat) : ∀ c ∈ (pad2 n).data, c.isDigit = true := by
  intro c hc
  unfold pad2 at hc
  by_cases h : n < 10
  · rw [if_pos h, String.data_append] at hc
    rcases List.mem_append.mp hc with hc | hc
    · have hz : c = (Char.ofNat 48) := by simpa using hc
      rw [hz]
      rfl
    · exact natRepr_digits n c hc
  · rw [if_neg h] at hc
    exact natRepr_digits n c hc

theorem dateStamp_breaksLiteral (t : LocalTime) : breaksLiteral (dateStamp t) = false := by
  have h1 := breaksLiteral_of_digits _ (natRepr_digits t.year)
  have h2 := breaksLiteral_of_digits _ (pad2_digits t.month)
  have h3 := breaksLiteral_of_digits _ (pad2_digits t.day)
  unfold breaksLiteral at h1 h2 h3 ⊢
  simp only [dateStamp, String.data_append, List.any_append]
  rw [h1, h2, h3]
  rfl

theorem pkgVersion_trunk (vf : VersionFile) (now : LocalTime) (tag : Option String) :
    pkgVersion vf now "trunk" tag
      = .ok (⟨"trunk", dateStamp now, timeStamp now⟩,
             get_version ⟨"trunk", dateStamp now, timeStamp now⟩ "",
             "Updated version to trunk " ++ dateStamp now) := by
  unfold pkgVersion
  simp only [dateStamp_breaksLiteral]
  rfl

theorem pkgVersion_bad_vn (vf : VersionFile) (now : LocalTime) (vn : String)
    (tag : Option String) (h : verify_version vn VERSIONS = none) :
    pkgVersion vf now vn tag = .error .valueError ∧
    pkgVersionFile vf now vn tag = vf := by
  unfold pkgVersion pkgVersionFile
  rw [h]
  exact ⟨rfl, rfl⟩

theorem pkgVersion_bad_tag (vf : VersionFile) (now : LocalTime) (vn rt : String)
    (hv : verify_version vn VERSIONS = some vn) (hk : vn ≠ "keep") (ht : vn ≠ "trunk")
    (hr : verify_version rt RELEASES = none) :
    pkgVersion vf now vn (some rt) = .error .valueError ∧
    pkgVersionFile vf now vn (some rt) = vf := by
  unfold pkgVersion pkgVersionFile
  rw [hv]
  simp [hk, ht, hr]

theorem pkgVersion_missing_tag (vf : VersionFile) (now : LocalTime) (vn : String)
    (hv : verify_version vn VERSIONS = some vn) (hk : vn ≠ "keep") (ht : vn ≠ "trunk") :
    pkgVersion vf now vn none = .error .typeError ∧
    pkgVersionFile vf now vn none = vf := by
  unfold pkgVersion pkgVersionFile
  rw [hv]
  simp [hk, ht]

end Package

namespace Package

/-! ### Claims about the version resolver -/

/-- C4: evaluation of the code at the failing input.  The module docstring
says the release tag may be "alpha", "beta" or "rc", optionally followed by a
number (for example "alpha1"), but RELEASES only matches the patterns a-digits,
b-digits and rc-digits, plus the literal "final": the tag "alpha2" is rejected
with ValueError, so resolution with version_number "2.1.13" and release_tag
"alpha2" fails instead of producing "2.1.13 alpha2".  The "final" half of the
claim does hold, and the short form "a2" is what the code actually accepts. -/
theorem c4_release_tag_eval :
    verify_version "alpha2" RELEASES = none ∧
    verify_version "alpha" RELEASES = none ∧
    verify_version "beta" RELEASES = none ∧
    verify_version "rc" RELEASES = some "rc" ∧
    verify_version "a2" RELEASES = some "a2" ∧
    pkgVersion ⟨"2.0", "final", "t0"⟩ ⟨2026, 10, 12, 0, 0, 0⟩ "2.1.13" (some "alpha2")
      = .error .valueError ∧
    pkgVersion ⟨"2.0", "final", "t0"⟩ ⟨2026, 10, 12, 0, 0, 0⟩ "2.1.13" (some "final")
      = .ok (⟨"2.1.13", "final", "20261012-000000"⟩, "2.1.13",
             "Updated version to 2.1.13 final") ∧
    get_version ⟨"2.1.13", "final", "20261012-000000"⟩ " " = "2.1.13" :=
  ⟨rfl, rfl, rfl, rfl, rfl, rfl, rfl, rfl⟩

/-- C6 counterexample: the claim says every version_number matching neither
the dotted-numeric pattern nor "trunk" nor "keep" fails with the validation
error (InvalidVersionError, the ValueError of `_verify_version`).  The string
made of "2.3" plus a trailing newline matches none of the three, yet
validation accepts it (the dollar anchor also matches just before a
string-final newline): the metadata file is then overwritten with the
malformed version string — an unterminated literal — and only the readback
of the module fails, with SyntaxError, after the mutation. -/
theorem c6_counterexample :
    verify_version "2.3\n" VERSIONS = some "2.3\n" ∧
    pkgVersion vfSample tSample "2.3\n" (some "final") = .error .syntaxError ∧
    Exc.syntaxError ≠ Exc.valueError ∧
    pkgVersionFile vfSample tSample "2.3\n" (some "final")
      = ⟨"2.3\n", "final", "20261012-030405"⟩ ∧
    pkgVersionFile vfSample tSample "2.3\n" (some "final") ≠ vfSample := by
  refine ⟨rfl, rfl, by decide, rfl, by decide⟩

/-- C6 amended: a version_number matching none of the three alternatives is
always rejected without returning a version string, but in one of two ways.
Outside the trailing-newline quirk family, `_verify_version` raises ValueError
(the InvalidVersionError) before anything is written.  A numeric match
followed by the single trailing newline that the dollar anchor tolerates is
instead accepted by validation; with an accepted release tag the malformed
string is written into the metadata file and the readback import raises
SyntaxError — an error that is not the validation error and that strikes only
after the file was overwritten. -/
theorem c6_version_rejection (vf : VersionFile) (now : LocalTime) :
    (∀ (vn : String) (tag : Option String),
      searchAnchored numericCore vn = false → vn ≠ "trunk" → vn ≠ "keep" →
      pkgVersion vf now vn tag = .error .valueError ∧
      pkgVersionFile vf now vn tag = vf) ∧
    (∀ (vn rt : String),
      numericCore vn.data = false →
      vn.data.getLast? = some '\n' →
      numericCore vn.data.dropLast = true →
      verify_version rt RELEASES = some rt →
      pkgVersion vf now vn (some rt) = .error .syntaxError ∧
      pkgVersionFile vf now vn (some rt) = ⟨vn, rt, timeStamp now⟩) := by
  constructor
  · intro vn tag h1 h2 h3
    have hv : verify_version vn VERSIONS = none := by
      unfold verify_version VERSIONS
      simp [Pat.accepts, h1, h2, h3]
    exact pkgVersion_bad_vn vf now vn tag hv
  · intro vn rt h1 h2 h3 hrt
    have hacc : searchAnchored numericCore vn = true := by
      unfold searchAnchored
      rw [h1, h2]
      simp [h3]
    have hkeep : vn ≠ "keep" := by
      rintro rfl
      exact absurd h2 (by decide)
    have htrunk : vn ≠ "trunk" := by
      rintro rfl
      exact absurd h2 (by decide)
    have hvv : verify_version vn VERSIONS = some vn := by
      unfold verify_version VERSIONS
      simp [Pat.accepts, hacc]
    have hbreak : breaksLiteral vn = true := by
      unfold breaksLiteral
      rw [List.any_eq_true]
      exact ⟨'\n', List.mem_of_getLast?_eq_some h2, by simp⟩
    unfold pkgVersion pkgVersionFile
    rw [hvv]
    simp [hkeep, htrunk, hrt, hbreak]

/-- C6 witness: a concrete plainly-rejected version_number and a concrete
member of the trailing-newline family. -/
theorem c6_witness :
    (pkgVersion vfSample tSample "3.0" none = .error .valueError ∧
     pkgVersionFile vfSample tSample "3.0" none = vfSample) ∧
    (pkgVersion vfSample tSample "2.3\n" (some "a1") = .error .syntaxError ∧
     pkgVersionFile vfSample tSample "2.3\n" (some "a1")
       = ⟨"2.3\n", "a1", "20261012-030405"⟩) :=
  ⟨(c6_version_rejection vfSample tSample).1 "3.0" none (by rfl) (by decide) (by decide),
   (c6_version_rejection vfSample tSample).2 "2.3\n" "a1"
     (by rfl) (by rfl) (by rfl) (by rfl)⟩

/-- C7: with the keep sentinel the operation writes nothing — the
version-metadata file state is returned unchanged, so its bytes are unchanged
— and the returned string is the stored version read through
`get_version(sep = empty)`; the result does not depend on the time or on the
release_tag argument, so repeating it is idempotent and read-only. -/
theorem c7_keep_readonly (vf : VersionFile) (now : LocalTime) (tag : Option String) :
    pkgVersion vf now "keep" tag
      = .ok (vf, get_version vf "", "Keeping version " ++ get_version vf " ") ∧
    (∀ (now2 : LocalTime) (tag2 : Option String),
      pkgVersion vf now2 "keep" tag2 = pkgVersion vf now "keep" tag) :=
  ⟨rfl, fun _ _ => rfl⟩

/-- C8: with the trunk sentinel the operation always writes the release tag
`'%d%02d%02d' % time.localtime()[:3]` — the current local date with the year
rendered in full decimal and month and day zero-padded to two digits — for
every release_tag argument; for the years 1000 to 9999 the year renders as
exactly four digits, giving the eight-character YYYYMMDD form. -/
theorem c8_trunk_datestamp (vf : VersionFile) (now : LocalTime) (tag : Option String)
    (hy1 : 1000 ≤ now.year) (hy2 : now.year < 10000)
    (hm : now.month < 100) (hd : now.day < 100) :
    pkgVersion vf now "trunk" tag
      = .ok (⟨"trunk", dateStamp now, timeStamp now⟩,
             get_version ⟨"trunk", dateStamp now, timeStamp now⟩ "",
             "Updated version to trunk " ++ dateStamp now) ∧
    dateStamp now = Nat.repr now.year ++ pad2 now.month ++ pad2 now.day ∧
    (Nat.repr now.year).length = 4 ∧
    (pad2 now.month).length = 2 ∧
    (pad2 now.day).length = 2 ∧
    (dateStamp now).length = 8 := by
  refine ⟨pkgVersion_trunk vf now tag, rfl, natRepr_len_four _ hy1 hy2,
    pad2_length _ hm, pad2_length _ hd, ?_⟩
  rw [dateStamp, String.length_append, String.length_append,
    natRepr_len_four _ hy1 hy2, pad2_length _ hm, pad2_length _ hd]

/-- C8 witness: a concrete trunk resolution, with a release_tag supplied and
ignored. -/
theorem c8_witness :
    pkgVersion ⟨"2.0", "final", "t0"⟩ ⟨2026, 10, 12, 3, 4, 5⟩ "trunk" (some "a1")
      = .ok (⟨"trunk", dateStamp ⟨2026, 10, 12, 3, 4, 5⟩, timeStamp ⟨2026, 10, 12, 3, 4, 5⟩⟩,
             get_version ⟨"trunk", dateStamp ⟨2026, 10, 12, 3, 4, 5⟩,
               timeStamp ⟨2026, 10, 12, 3, 4, 5⟩⟩ "",
             "Updated version to trunk " ++ dateStamp ⟨2026, 10, 12, 3, 4, 5⟩) ∧
    dateStamp ⟨2026, 10, 12, 3, 4, 5⟩
      = Nat.repr 2026 ++ pad2 10 ++ pad2 12 ∧
    (Nat.repr (2026 : Nat)).length = 4 ∧
    (pad2 10).length = 2 ∧
    (pad2 12).length = 2 ∧
    (dateStamp ⟨2026, 10, 12, 3, 4, 5⟩).length = 8 :=
  c8_trunk_datestamp ⟨"2.0", "final", "t0"⟩ ⟨2026, 10, 12, 3, 4, 5⟩ (some "a1")
    (by norm_num) (by norm_num) (by norm_num) (by norm_num)

end Package

namespace Listeners

/-! ### Claims about the import-listener formatter -/

/-- C9 counterexample: the claim says the normalized output for the absolute
path of an `__init__.py` file ends with a double slash followed by the full
directory path (the filename elided); the code instead keeps the filename plus
its immediate parent directory, producing a string that does not end with (or
even contain) that directory path. -/
theorem c9_counterexample :
    pretty (.str "/home/user/project/__init__.py") = "//project/__init__.py" ∧
    ("//home/user/project".data.isSuffixOf
        (pretty (.str "/home/user/project/__init__.py")).data) = false := by
  constructor
  · rfl
  · decide

/-- C9 amended: for the absolute path of an `__init__.py` file the formatter
keeps the last two path components — the package directory name together with
the `__init__.py` filename — prefixed by a double slash, and for a
`module$py.class` path the compiled-module suffix is collapsed back to `.py`
and only the resulting filename is kept; separators are forward slashes. -/
theorem c9_pretty_examples :
    pretty (.str "/home/user/project/__init__.py") = "//project/__init__.py" ∧
    pretty (.str "/home/user/project/module$py.class") = "//module.py" ∧
    pretty (.str "/home/user/project/module.pyc") = "//module.py" ∧
    pretty (.str "/home/user/project/module.py") = "//module.py" ∧
    pretty (.str "relative/path.py") = "relative/path.py" :=
  ⟨rfl, rfl, rfl, rfl, rfl⟩

end Listeners

namespace Package

/-! ### Claims about the RecompileAll stage -/

/-- C1 counterexample: after `_compile_all_py_files` on a staging tree holding
a bundled-runtime source `Lib/os.py` (with its compiled mirror
`Lib/os$py.class` produced by the compileall run) and a project source
`Lib/robot/runner.py` (with its compiled mirror), the runtime source that
mirrors a compiled file is RETAINED and the project source under Lib/robot is
DELETED — the exact opposite of the claim. -/
theorem c1_counterexample :
    compile_all_py_files ["Lib/os$py.class", "Lib/robot/runner$py.class"]
        ["Lib/os.py", "Lib/robot/runner.py"]
      = ["Lib/os.py", "Lib/os$py.class", "Lib/robot/runner$py.class"] ∧
    "Lib/os.py" ∈ compile_all_py_files ["Lib/os$py.class", "Lib/robot/runner$py.class"]
        ["Lib/os.py", "Lib/robot/runner.py"] ∧
    "Lib/robot/runner.py" ∉ compile_all_py_files ["Lib/os$py.class", "Lib/robot/runner$py.class"]
        ["Lib/os.py", "Lib/robot/runner.py"] := by
  refine ⟨rfl, ?_, ?_⟩ <;> decide

/-- C1 amended: after the RecompileAll stage, every interpretable-source (.py)
file under the staging tree Lib/robot — the project sources — is deleted
(whether or not a compiled mirror exists; Robot runs from the compiled files),
while every file outside Lib/robot, in particular every bundled-runtime
(Jython) source, is retained. -/
theorem c1_project_sources_stripped (added tree : List String) :
    (∀ p, underLibRobot p = true → isPyFile p = true →
      p ∉ compile_all_py_files added tree) ∧
    (∀ p ∈ tree, underLibRobot p = false → p ∈ compile_all_py_files added tree) := by
  constructor
  · intro p h1 h2 hmem
    have := (List.mem_filter.mp hmem).2
    rw [h1, h2] at this
    simp at this
  · intro p hp h1
    refine List.mem_filter.mpr ⟨List.mem_append_left _ hp, ?_⟩
    rw [h1]
    simp

/-- C1 witness: concrete instances of both halves. -/
theorem c1_witness :
    "Lib/robot/rebot.py" ∉ compile_all_py_files ["Lib/robot/rebot$py.class"]
        ["Lib/javapath.py", "Lib/robot/rebot.py"] ∧
    "Lib/javapath.py" ∈ compile_all_py_files ["Lib/robot/rebot$py.class"]
        ["Lib/javapath.py", "Lib/robot/rebot.py"] :=
  ⟨(c1_project_sources_stripped _ _).1 "Lib/robot/rebot.py" (by rfl) (by rfl),
   (c1_project_sources_stripped _ _).2 "Lib/javapath.py" (by decide) (by rfl)⟩

end Package

namespace Package

/-! ### Claims about the jar pipeline -/

/-- Helper: the string returned by a successful version resolution is always
the stored version read back with the empty separator. -/
theorem pkgVersion_ok_ver (vf0 : VersionFile) (now : LocalTime) (vn : String)
    (tag : Option String) (vf : VersionFile) (ver msg : String)
    (h : pkgVersion vf0 now vn tag = .ok (vf, ver, msg)) :
    ver = get_version vf "" := by
  unfold pkgVersion at h
  repeat' split at h
  any_goals exact (Except.noConfusion h)
  all_goals
    rw [Except.ok.injEq, Prod.mk.injEq, Prod.mk.injEq] at h
    obtain ⟨h1, h2, _⟩ := h
    subst h1
    exact h2.symm

/-- C2: when the RecompileAll stage fails with a non-zero exit of the external
compiler (a CalledProcessError from the Jython compileall run), the outer
handler catches it and `shutil.rmtree` still runs: after the call returns
normally, the staging directory does not exist and the output directory holds
no new archive. -/
theorem c2_recompile_failure_cleanup (env : Env) (vn : String) (tag : Option String)
    (w : World) (vf : VersionFile) (ver vmsg : String) (c : Nat)
    (hj : w.jythonJar = true)
    (hv : pkgVersion w.vfile env.now vn tag = .ok (vf, ver, vmsg))
    (hjavac : env.javacRes = .ret 0)
    (hcomp : env.compileallRes = .ret c) (hc : c ≠ 0) :
    (jar env vn tag w).1.staging = none ∧
    (jar env vn tag w).1.distFiles = w.distFiles ∧
    (jar env vn tag w).2 = .ok := by
  simp [jar, get_jython_jar, hj, hv, hjavac, hcomp, hc]

/-- C2 witness: a concrete run in which the compileall stage exits 2. -/
theorem c2_witness :
    (jar { envSample with compileallRes := .ret 2 } "2.8" (some "a1") wSample).1.staging
      = none ∧
    (jar { envSample with compileallRes := .ret 2 } "2.8" (some "a1") wSample).1.distFiles
      = wSample.distFiles ∧
    (jar { envSample with compileallRes := .ret 2 } "2.8" (some "a1") wSample).2 = .ok :=
  c2_recompile_failure_cleanup { envSample with compileallRes := .ret 2 }
    "2.8" (some "a1") wSample ⟨"2.8", "a1", "20261012-030405"⟩ "2.8a1"
    "Updated version to 2.8 a1" 2 rfl rfl rfl rfl (by decide)

/-- C3 counterexample: the claim requires a non-zero process exit code when an
external compile stage fails with a non-zero tool exit; in that very
situation (here the compileall stage exits 2) the CalledProcessError is
caught, the function falls through to cleanup and returns normally, and the
process exits 0. -/
theorem c3_counterexample :
    (jar { envSample with compileallRes := .ret 2 } "trunk" none wSample).2 = .ok ∧
    (processExit (jar { envSample with compileallRes := .ret 2 } "trunk" none wSample)).1
      = 0 := by
  constructor
  · rfl
  · rfl

/-- C3 amended: a compile or packaging tool that runs and returns a non-zero
exit does not raise out of `jar` uncaught — the CalledProcessError is caught
and a human-readable message is printed (the javac message for both compile
stages, so a Jython-compileall failure is misattributed to javac; the jar
message for the packaging stage) — but the process then exits 0, not
non-zero.  A tool that is missing altogether instead raises OSError, which
nothing catches, and the interpreter exits 1: the failure is then neither
caught nor reported with a tool-naming message. -/
theorem c3_tool_failure_behaviour :
    (∀ (env : Env) (vn : String) (tag : Option String) (w : World)
        (vf : VersionFile) (ver vmsg : String) (c : Nat),
      w.jythonJar = true →
      pkgVersion w.vfile env.now vn tag = .ok (vf, ver, vmsg) →
      env.javacRes = .ret c → c ≠ 0 →
      (jar env vn tag w).2 = .ok ∧
      javacFailMsg ∈ (jar env vn tag w).1.msgs ∧
      (processExit (jar env vn tag w)).1 = 0) ∧
    (∀ (env : Env) (vn : String) (tag : Option String) (w : World)
        (vf : VersionFile) (ver vmsg : String) (c : Nat),
      w.jythonJar = true →
      pkgVersion w.vfile env.now vn tag = .ok (vf, ver, vmsg) →
      env.javacRes = .ret 0 → env.compileallRes = .ret c → c ≠ 0 →
      (jar env vn tag w).2 = .ok ∧
      javacFailMsg ∈ (jar env vn tag w).1.msgs ∧
      (processExit (jar env vn tag w)).1 = 0) ∧
    (∀ (env : Env) (vn : String) (tag : Option String) (w : World)
        (vf : VersionFile) (ver vmsg : String) (c : Nat),
      w.jythonJar = true →
      pkgVersion w.vfile env.now vn tag = .ok (vf, ver, vmsg) →
      env.javacRes = .ret 0 → env.compileallRes = .ret 0 →
      env.jarRes = .ret c → c ≠ 0 →
      (jar env vn tag w).2 = .ok ∧
      jarFailMsg ∈ (jar env vn tag w).1.msgs ∧
      (processExit (jar env vn tag w)).1 = 0) ∧
    (∀ (env : Env) (vn : String) (tag : Option String) (w : World)
        (vf : VersionFile) (ver vmsg : String),
      w.jythonJar = true →
      pkgVersion w.vfile env.now vn tag = .ok (vf, ver, vmsg) →
      env.javacRes = .missing →
      (jar env vn tag w).2 = .exc .osError ∧
      (processExit (jar env vn tag w)).1 = 1) ∧
    (∀ (env : Env) (vn : String) (tag : Option String) (w : World)
        (vf : VersionFile) (ver vmsg : String),
      w.jythonJar = true →
      pkgVersion w.vfile env.now vn tag = .ok (vf, ver, vmsg) →
      env.javacRes = .ret 0 → env.compileallRes = .missing →
      (jar env vn tag w).2 = .exc .osError ∧
      (processExit (jar env vn tag w)).1 = 1) ∧
    (∀ (env : Env) (vn : String) (tag : Option String) (w : World)
        (vf : VersionFile) (ver vmsg : String),
      w.jythonJar = true →
      pkgVersion w.vfile env.now vn tag = .ok (vf, ver, vmsg) →
      env.javacRes = .ret 0 → env.compileallRes = .ret 0 → env.jarRes = .missing →
      (jar env vn tag w).2 = .exc .osError ∧
      (processExit (jar env vn tag w)).1 = 1) := by
  refine ⟨?_, ?_, ?_, ?_, ?_, ?_⟩
  · intro env vn tag w vf ver vmsg c hj hv hjavac hc
    simp [jar, get_jython_jar, processExit, hj, hv, hjavac, hc]
  · intro env vn tag w vf ver vmsg c hj hv hjavac hcomp hc
    simp [jar, get_jython_jar, processExit, hj, hv, hjavac, hcomp, hc]
  · intro env vn tag w vf ver vmsg c hj hv hjavac hcomp hjar hc
    refine ⟨?_, ?_, ?_⟩
    · simp [jar, get_jython_jar, hj, hv, hjavac, hcomp, hjar, hc]
    · simp [jar, get_jython_jar, hj, hv, hjavac, hcomp, hjar, hc]
    · simp [jar, get_jython_jar, processExit, hj, hv, hjavac, hcomp, hjar, hc]
  · intro env vn tag w vf ver vmsg hj hv hjavac
    simp [jar, get_jython_jar, processExit, hj, hv, hjavac]
  · intro env vn tag w vf ver vmsg hj hv hjavac hcomp
    simp [jar, get_jython_jar, processExit, hj, hv, hjavac, hcomp]
  · intro env vn tag w vf ver vmsg hj hv hjavac hcomp hjar
    constructor
    · simp [jar, get_jython_jar, hj, hv, hjavac, hcomp, hjar]
    · simp [jar, get_jython_jar, processExit, hj, hv, hjavac, hcomp, hjar]

/-- C3 witness: concrete runs exercising all six parts. -/
theorem c3_witness :
    ((jar { envSample with javacRes := .ret 1 } "2.8" (some "a1") wSample).2 = .ok ∧
      javacFailMsg ∈ (jar { envSample with javacRes := .ret 1 } "2.8" (some "a1") wSample).1.msgs ∧
      (processExit (jar { envSample with javacRes := .ret 1 } "2.8" (some "a1") wSample)).1 = 0) ∧
    ((jar { envSample with compileallRes := .ret 3 } "2.8" (some "a1") wSample).2 = .ok ∧
      javacFailMsg ∈ (jar { envSample with compileallRes := .ret 3 } "2.8" (some "a1") wSample).1.msgs ∧
      (processExit (jar { envSample with compileallRes := .ret 3 } "2.8" (some "a1") wSample)).1 = 0) ∧
    ((jar { envSample with jarRes := .ret 5 } "2.8" (some "a1") wSample).2 = .ok ∧
      jarFailMsg ∈ (jar { envSample with jarRes := .ret 5 } "2.8" (some "a1") wSample).1.msgs ∧
      (processExit (jar { envSample with jarRes := .ret 5 } "2.8" (some "a1") wSample)).1 = 0) ∧
    ((jar { envSample with javacRes := .missing } "2.8" (some "a1") wSample).2 = .exc .osError ∧
      (processExit (jar { envSample with javacRes := .missing } "2.8" (some "a1") wSample)).1 = 1) ∧
    ((jar { envSample with compileallRes := .missing } "2.8" (some "a1") wSample).2 = .exc .osError ∧
      (processExit (jar { envSample with compileallRes := .missing } "2.8" (some "a1") wSample)).1 = 1) ∧
    ((jar { envSample with jarRes := .missing } "2.8" (some "a1") wSample).2 = .exc .osError ∧
      (processExit (jar { envSample with jarRes := .missing } "2.8" (some "a1") wSample)).1 = 1) :=
  ⟨c3_tool_failure_behaviour.1 _ "2.8" (some "a1") wSample
      ⟨"2.8", "a1", "20261012-030405"⟩ "2.8a1" "Updated version to 2.8 a1" 1
      rfl rfl rfl (by decide),
   c3_tool_failure_behaviour.2.1 _ "2.8" (some "a1") wSample
      ⟨"2.8", "a1", "20261012-030405"⟩ "2.8a1" "Updated version to 2.8 a1" 3
      rfl rfl rfl rfl (by decide),
   c3_tool_failure_behaviour.2.2.1 _ "2.8" (some "a1") wSample
      ⟨"2.8", "a1", "20261012-030405"⟩ "2.8a1" "Updated version to 2.8 a1" 5
      rfl rfl rfl rfl rfl (by decide),
   c3_tool_failure_behaviour.2.2.2.1 _ "2.8" (some "a1") wSample
      ⟨"2.8", "a1", "20261012-030405"⟩ "2.8a1" "Updated version to 2.8 a1"
      rfl rfl rfl,
   c3_tool_failure_behaviour.2.2.2.2.1 _ "2.8" (some "a1") wSample
      ⟨"2.8", "a1", "20261012-030405"⟩ "2.8a1" "Updated version to 2.8 a1"
      rfl rfl rfl rfl,
   c3_tool_failure_behaviour.2.2.2.2.2 _ "2.8" (some "a1") wSample
      ⟨"2.8", "a1", "20261012-030405"⟩ "2.8a1" "Updated version to 2.8 a1"
      rfl rfl rfl rfl rfl⟩

end Package

namespace Package

/-- C5 counterexample: for the jar command the claim fails — `_get_jython_jar`
runs before the version resolver, and with no cached Jython jar it creates the
ext-lib directory and downloads the jar; only afterwards does version
validation reject the bogus version_number, so the abort happens after
filesystem mutations. -/
theorem c5_counterexample :
    wSampleNoJython.extLibDir = false ∧
    wSampleNoJython.jythonJar = false ∧
    (jar envSample "bogus" none wSampleNoJython).2 = .exc .valueError ∧
    (jar envSample "bogus" none wSampleNoJython).1.extLibDir = true ∧
    (jar envSample "bogus" none wSampleNoJython).1.jythonJar = true := by
  refine ⟨rfl, rfl, rfl, rfl, rfl⟩

/-- C5 amended: for the sdist, wininst, all and version commands, the version
resolver does run before any other component, and every validation failure —
an invalid version number, an invalid release tag, or a missing release tag
where one is required — aborts with the world completely unchanged.  For the
jar command, Jython-jar acquisition runs before version resolution, and when
the jar is not cached it creates the ext-lib directory and downloads the
archive before any of those same validation failures aborts the command (the
version-metadata file itself is still untouched). -/
theorem c5_version_first_except_jar :
    (∀ (env : Env) (vn : String) (tag : Option String) (w : World),
      verify_version vn VERSIONS = none →
      sdist env vn tag w = (w, .exc .valueError) ∧
      wininst env vn tag w = (w, .exc .valueError) ∧
      allCmd env vn tag w = (w, .exc .valueError) ∧
      versionCmd env vn tag w = (w, .exc .valueError)) ∧
    (∀ (env : Env) (vn rt : String) (w : World),
      verify_version vn VERSIONS = some vn → vn ≠ "keep" → vn ≠ "trunk" →
      verify_version rt RELEASES = none →
      sdist env vn (some rt) w = (w, .exc .valueError) ∧
      wininst env vn (some rt) w = (w, .exc .valueError) ∧
      allCmd env vn (some rt) w = (w, .exc .valueError) ∧
      versionCmd env vn (some rt) w = (w, .exc .valueError)) ∧
    (∀ (env : Env) (vn : String) (w : World),
      verify_version vn VERSIONS = some vn → vn ≠ "keep" → vn ≠ "trunk" →
      sdist env vn none w = (w, .exc .typeError) ∧
      wininst env vn none w = (w, .exc .typeError) ∧
      allCmd env vn none w = (w, .exc .typeError) ∧
      versionCmd env vn none w = (w, .exc .typeError)) ∧
    (∀ (env : Env) (vn : String) (tag : Option String) (w : World),
      verify_version vn VERSIONS = none →
      env.downloadOk = true → w.jythonJar = false → w.extLibDir = false →
      (jar env vn tag w).2 = .exc .valueError ∧
      (jar env vn tag w).1.extLibDir = true ∧
      (jar env vn tag w).1.jythonJar = true ∧
      (jar env vn tag w).1.vfile = w.vfile) ∧
    (∀ (env : Env) (vn rt : String) (w : World),
      verify_version vn VERSIONS = some vn → vn ≠ "keep" → vn ≠ "trunk" →
      verify_version rt RELEASES = none →
      env.downloadOk = true → w.jythonJar = false → w.extLibDir = false →
      (jar env vn (some rt) w).2 = .exc .valueError ∧
      (jar env vn (some rt) w).1.extLibDir = true ∧
      (jar env vn (some rt) w).1.jythonJar = true ∧
      (jar env vn (some rt) w).1.vfile = w.vfile) ∧
    (∀ (env : Env) (vn : String) (w : World),
      verify_version vn VERSIONS = some vn → vn ≠ "keep" → vn ≠ "trunk" →
      env.downloadOk = true → w.jythonJar = false → w.extLibDir = false →
      (jar env vn none w).2 = .exc .typeError ∧
      (jar env vn none w).1.extLibDir = true ∧
      (jar env vn none w).1.jythonJar = true ∧
      (jar env vn none w).1.vfile = w.vfile) := by
  refine ⟨?_, ?_, ?_, ?_, ?_, ?_⟩
  · intro env vn tag w hv
    obtain ⟨hp, hpf⟩ := pkgVersion_bad_vn w.vfile env.now vn tag hv
    refine ⟨?_, ?_, ?_, ?_⟩ <;> simp [sdist, wininst, allCmd, versionCmd, hp, hpf]
  · intro env vn rt w hv hk ht hr
    obtain ⟨hp, hpf⟩ := pkgVersion_bad_tag w.vfile env.now vn rt hv hk ht hr
    refine ⟨?_, ?_, ?_, ?_⟩ <;> simp [sdist, wininst, allCmd, versionCmd, hp, hpf]
  · intro env vn w hv hk ht
    obtain ⟨hp, hpf⟩ := pkgVersion_missing_tag w.vfile env.now vn hv hk ht
    refine ⟨?_, ?_, ?_, ?_⟩ <;> simp [sdist, wininst, allCmd, versionCmd, hp, hpf]
  · intro env vn tag w hv hdl hj hext
    obtain ⟨hp, hpf⟩ := pkgVersion_bad_vn w.vfile env.now vn tag hv
    refine ⟨?_, ?_, ?_, ?_⟩ <;> simp [jar, get_jython_jar, hj, hext, hdl, hp, hpf]
  · intro env vn rt w hv hk ht hr hdl hj hext
    obtain ⟨hp, hpf⟩ := pkgVersion_bad_tag w.vfile env.now vn rt hv hk ht hr
    refine ⟨?_, ?_, ?_, ?_⟩ <;> simp [jar, get_jython_jar, hj, hext, hdl, hp, hpf]
  · intro env vn w hv hk ht hdl hj hext
    obtain ⟨hp, hpf⟩ := pkgVersion_missing_tag w.vfile env.now vn hv hk ht
    refine ⟨?_, ?_, ?_, ?_⟩ <;> simp [jar, get_jython_jar, hj, hext, hdl, hp, hpf]

/-- C5 witness: concrete instances of all six parts — invalid version number,
rejected release tag, and missing release tag, for the four ordinary commands
and for the jar command without a cached runtime. -/
theorem c5_witness :
    (sdist envSample "bogus" none wSample = (wSample, .exc .valueError) ∧
     wininst envSample "bogus" none wSample = (wSample, .exc .valueError) ∧
     allCmd envSample "bogus" none wSample = (wSample, .exc .valueError) ∧
     versionCmd envSample "bogus" none wSample = (wSample, .exc .valueError)) ∧
    (sdist envSample "2.8" (some "alpha") wSample = (wSample, .exc .valueError) ∧
     wininst envSample "2.8" (some "alpha") wSample = (wSample, .exc .valueError) ∧
     allCmd envSample "2.8" (some "alpha") wSample = (wSample, .exc .valueError) ∧
     versionCmd envSample "2.8" (some "alpha") wSample = (wSample, .exc .valueError)) ∧
    (sdist envSample "2.8" none wSample = (wSample, .exc .typeError) ∧
     wininst envSample "2.8" none wSample = (wSample, .exc .typeError) ∧
     allCmd envSample "2.8" none wSample = (wSample, .exc .typeError) ∧
     versionCmd envSample "2.8" none wSample = (wSample, .exc .typeError)) ∧
    ((jar envSample "bogus" none wSampleNoJython).2 = .exc .valueError ∧
     (jar envSample "bogus" none wSampleNoJython).1.extLibDir = true ∧
     (jar envSample "bogus" none wSampleNoJython).1.jythonJar = true ∧
     (jar envSample "bogus" none wSampleNoJython).1.vfile = wSampleNoJython.vfile) ∧
    ((jar envSample "2.8" (some "alpha") wSampleNoJython).2 = .exc .valueError ∧
     (jar envSample "2.8" (some "alpha") wSampleNoJython).1.extLibDir = true ∧
     (jar envSample "2.8" (some "alpha") wSampleNoJython).1.jythonJar = true ∧
     (jar envSample "2.8" (some "alpha") wSampleNoJython).1.vfile = wSampleNoJython.vfile) ∧
    ((jar envSample "2.8" none wSampleNoJython).2 = .exc .typeError ∧
     (jar envSample "2.8" none wSampleNoJython).1.extLibDir = true ∧
     (jar envSample "2.8" none wSampleNoJython).1.jythonJar = true ∧
     (jar envSample "2.8" none wSampleNoJython).1.vfile = wSampleNoJython.vfile) :=
  ⟨c5_version_first_except_jar.1 envSample "bogus" none wSample (by rfl),
   c5_version_first_except_jar.2.1 envSample "2.8" "alpha" wSample
     (by rfl) (by decide) (by decide) (by rfl),
   c5_version_first_except_jar.2.2.1 envSample "2.8" wSample
     (by rfl) (by decide) (by decide),
   c5_version_first_except_jar.2.2.2.1 envSample "bogus" none wSampleNoJython
     (by rfl) rfl rfl rfl,
   c5_version_first_except_jar.2.2.2.2.1 envSample "2.8" "alpha" wSampleNoJython
     (by rfl) (by decide) (by decide) (by rfl) rfl rfl rfl,
   c5_version_first_except_jar.2.2.2.2.2 envSample "2.8" wSampleNoJython
     (by rfl) (by decide) (by decide) rfl rfl rfl⟩

/-- C10: on a fully successful jar run, the version string is the one computed
with the empty separator — identical to VERSION for a final release and to the
direct concatenation VERSION ++ RELEASE (for example "2.8a1", with no space)
otherwise — and exactly this string is embedded in the produced archive name
robotframework-(string).jar and written as the Implementation-Version line of
the manifest packaged into that archive. -/
theorem c10_version_string_empty_sep (env : Env) (vn : String) (tag : Option String)
    (w : World) (vf : VersionFile) (ver vmsg : String)
    (hj : w.jythonJar = true)
    (hv : pkgVersion w.vfile env.now vn tag = .ok (vf, ver, vmsg))
    (hjavac : env.javacRes = .ret 0) (hcomp : env.compileallRes = .ret 0)
    (hjar : env.jarRes = .ret 0) :
    (jar env vn tag w).2 = .ok ∧
    (jar env vn tag w).1.distFiles
      = w.distFiles ++ [⟨"robotframework-" ++ ver ++ ".jar", some (manifestContent ver)⟩] ∧
    ver = get_version vf "" ∧
    (vf.release = "final" → ver = vf.version) ∧
    (vf.release ≠ "final" → ver = vf.version ++ vf.release) := by
  have hver := pkgVersion_ok_ver _ _ _ _ _ _ _ hv
  refine ⟨?_, ?_, hver, ?_, ?_⟩
  · simp [jar, get_jython_jar, hj, hv, hjavac, hcomp, hjar]
  · simp [jar, get_jython_jar, hj, hv, hjavac, hcomp, hjar]
    split <;> rfl
  · intro hf
    rw [hver, get_version, if_pos (by simp [hf])]
  · intro hf
    rw [hver, get_version, if_neg (by simp [hf]), String.append_empty]

/-- C10 witness: a concrete successful run producing robotframework-2.8a1.jar
with Implementation-Version 2.8a1. -/
theorem c10_witness :
    (jar envSample "2.8" (some "a1") wSample).2 = .ok ∧
    (jar envSample "2.8" (some "a1") wSample).1.distFiles
      = wSample.distFiles
          ++ [⟨"robotframework-" ++ "2.8a1" ++ ".jar", some (manifestContent "2.8a1")⟩] ∧
    "2.8a1" = get_version ⟨"2.8", "a1", "20261012-030405"⟩ "" ∧
    ((⟨"2.8", "a1", "20261012-030405"⟩ : VersionFile).release = "final" →
      "2.8a1" = (⟨"2.8", "a1", "20261012-030405"⟩ : VersionFile).version) ∧
    ((⟨"2.8", "a1", "20261012-030405"⟩ : VersionFile).release ≠ "final" →
      "2.8a1" = (⟨"2.8", "a1", "20261012-030405"⟩ : VersionFile).version
        ++ (⟨"2.8", "a1", "20261012-030405"⟩ : VersionFile).release) :=
  c10_version_string_empty_sep envSample "2.8" (some "a1") wSample
    ⟨"2.8", "a1", "20261012-030405"⟩ "2.8a1" "Updated version to 2.8 a1"
    rfl rfl rfl rfl rfl

end Package
